import Mathlib

/-!
# Verification of the AI-news sentiment pipeline

This file gives a shallow embedding of the sentiment-scoring and
aggregation pipeline of the repository (`src/api_handler.py`, with the
extremal lookups of `src/cli_demo.py`), and proves or refutes the frozen
claims about it.

Modelling conventions:

* Python floats are modelled as rationals (`ℚ`); the float literals
  `0.7`, `0.3`, `0.1`, `0.05` of the source become `7/10`, `3/10`,
  `1/10`, `5/100`.
* The external sentiment libraries (`textblob`, `vaderSentiment`) and the
  tabular library's date parsing are opaque pure functions, collected in
  the `Libs` structure.  All theorems quantify over them: the claims under
  study are structural and hold for every choice of lexicon.
* A Python dict field that may be absent or `None` is a `PyField`
  (`absent` / `null` / `str s`); `PyField.pyGet` is `d.get(k)`,
  `PyField.subscript` is `d[k]` (raising `KeyError` when the key is
  absent), `PyField.pyGetD` is `d.get(k, default)`.
* Exceptions are modelled with `Except String`; an uncaught Python
  exception is an `Except.error` that propagates out of the translated
  function.
* `DataFrame.sort_values('published_at', ascending=False)` is modelled by
  its actual implementation structure (reverse the keys, take an
  ascending argsort of the reversed keys, remap and reverse the indexer,
  then take the rows).  The underlying `argsort` with the default
  `kind='quicksort'` is documented to be non-stable, so it is an opaque
  function in `Libs`, constrained only by its documented contract
  `ArgsortOK` (it returns a permutation of the index range along which
  the keys are ascending).
-/

/-- A Python dict entry that may be absent, present with value `None`, or a
string. -/
inductive PyField where
  | absent : PyField
  | null : PyField
  | str : String → PyField
deriving DecidableEq

/-- Python `d.get(k)`: `None` when the key is absent or the value is `None`. -/
def PyField.pyGet : PyField → Option String
  | .absent => none
  | .null => none
  | .str s => some s

/-- Python `d[k]`: raises `KeyError` when the key is absent, otherwise the
stored value (which may be `None`). -/
def PyField.subscript : PyField → Except String (Option String)
  | .absent => .error ("KeyError")
  | .null => .ok none
  | .str s => .ok (some s)

/-- Python `d.get(k, default)`: the default only replaces an absent key; a
stored `None` is returned as `None`. -/
def PyField.pyGetD : PyField → String → Option String
  | .absent, d => some d
  | .null, _ => none
  | .str s, _ => some s

/-- Python truthiness of a string-or-`None` value: `None` and `""` are falsy. -/
def pyTruthy : Option String → Bool
  | none => false
  | some s => s ≠ ""

/-- The external pure functions the pipeline calls: the two sentiment
lexicons (`textblob`'s polarity and subjectivity, `vaderSentiment`'s
compound score), the timestamp parser behind `pd.to_datetime`, and the
ascending argsort behind `sort_values(kind='quicksort')`. -/
structure Libs where
  blobPolarity : String → ℚ
  blobSubjectivity : String → ℚ
  vaderCompound : String → ℚ
  parseDatetime : String → ℤ
  argsort : List ℤ → List ℕ

/-- The documented contract of `numpy.argsort` (any `kind`): the result is a
permutation of `range n` along which the keys are ascending.  The default
`kind='quicksort'` promises nothing further — in particular no stability. -/
def ArgsortOK (f : List ℤ → List ℕ) : Prop :=
  ∀ keys : List ℤ,
    (f keys).Perm (List.range keys.length) ∧
    (f keys).Pairwise (fun i j => keys.getD i 0 ≤ keys.getD j 0)

/-- The dictionary returned by `AINewsAnalyzer.analyze_sentiment`. -/
structure SentimentScore where
  polarity : ℚ
  subjectivity : ℚ
  label : String
  confidence : ℚ
deriving DecidableEq

/-- A raw article record as handed to `process_news_articles`.  `title`,
`description`, `publishedAt` and `author` may be absent or `None` (the
source accesses them with a mix of `.get` and `[...]`); `url` and
`source.name` are accessed only with `[...]` and the spec's data model makes
them mandatory strings, so they are plain fields here. -/
structure RawArticle where
  title : PyField
  description : PyField
  url : String
  sourceName : String
  publishedAt : PyField
  author : PyField
deriving DecidableEq

/-- One row of the processed DataFrame built in `process_news_articles`
(the `processed_article` dict).  `title` and `published_at` hold the raw
dict values `article['title']` / `article['publishedAt']` (string or
`None`); `description` and `author` hold `article.get(...)` results. -/
structure ProcessedArticle where
  title : Option String
  description : Option String
  url : String
  source : String
  published_at : Option String
  author : Option String
  sentiment_label : String
  sentiment_polarity : ℚ
  sentiment_subjectivity : ℚ
  title_sentiment : String
  title_polarity : ℚ
  description_sentiment : String
  description_polarity : ℚ
deriving DecidableEq

instance : Inhabited ProcessedArticle :=
  ⟨⟨none, none, "", "", none, none, "", 0, 0, "", 0, "", 0⟩⟩

/-- Model of `AINewsAnalyzer.analyze_sentiment(text, model)` (api_handler.py
lines 98–136).  Empty or `None` text short-circuits to the fixed neutral score;
otherwise subjectivity always comes from TextBlob, polarity and its
threshold from Vader exactly when `model == "Vader"` and from TextBlob
otherwise, the label is the strict symmetric step on the threshold, and
confidence is `abs(polarity)`. -/
def analyzeSentiment (L : Libs) (text : Option String) (model : String) :
    SentimentScore :=
  if pyTruthy text = false then
    { polarity := 0, subjectivity := 0, label := "neutral", confidence := 0 }
  else
    let s := text.getD ("")
    let subjectivity := L.blobSubjectivity s
    let pt : ℚ × ℚ :=
      if model = "Vader" then (L.vaderCompound s, 5/100)
      else (L.blobPolarity s, 1/10)
    let label :=
      if pt.1 > pt.2 then "positive"
      else if pt.1 < -pt.2 then "negative"
      else "neutral"
    { polarity := pt.1, subjectivity := subjectivity, label := label,
      confidence := |pt.1| }

/-- The combined-label rule inlined at api_handler.py lines 164–169: the
fixed symmetric threshold `0.1` on the combined polarity. -/
def overallSentimentLabel (combined_polarity : ℚ) : String :=
  if combined_polarity > 1/10 then "positive"
  else if combined_polarity < -(1/10) then "negative"
  else "neutral"

/-- The body of the `for article in articles` loop of
`process_news_articles` for one article that passed the missing-data guard
(api_handler.py lines 154–185): scores title and description (note the
source reads `article['description']` with subscripting, so an absent
description key raises `KeyError`), combines them 0.7/0.3, labels the
combination with the fixed 0.1 threshold, and builds the row dict. -/
def processArticle (L : Libs) (article : RawArticle) (model : String) :
    Except String ProcessedArticle :=
  match article.title.subscript with
  | .error e => .error e
  | .ok titleVal =>
    let titleScore := analyzeSentiment L titleVal model
    match article.description.subscript with
    | .error e => .error e
    | .ok descVal =>
      let descScore := analyzeSentiment L descVal model
      let combined_polarity :=
        titleScore.polarity * (7/10) + descScore.polarity * (3/10)
      let combined_subjectivity :=
        titleScore.subjectivity * (7/10) + descScore.subjectivity * (3/10)
      let overall_sentiment := overallSentimentLabel combined_polarity
      match article.publishedAt.subscript with
      | .error e => .error e
      | .ok pubVal =>
        .ok { title := titleVal
              description := article.description.pyGetD ("")
              url := article.url
              source := article.sourceName
              published_at := pubVal
              author := article.author.pyGetD ("Unknown")
              sentiment_label := overall_sentiment
              sentiment_polarity := combined_polarity
              sentiment_subjectivity := combined_subjectivity
              title_sentiment := titleScore.label
              title_polarity := titleScore.polarity
              description_sentiment := descScore.label
              description_polarity := descScore.polarity }

/-- The article loop of `process_news_articles` (api_handler.py lines
149–187): articles whose `.get('title')` or `.get('publishedAt')` is falsy
are skipped with `continue`; an uncaught exception from the body aborts the
whole loop. -/
def processLoop (L : Libs) (model : String) :
    List RawArticle → Except String (List ProcessedArticle)
  | [] => .ok []
  | article :: rest =>
    if !pyTruthy article.title.pyGet || !pyTruthy article.publishedAt.pyGet then
      processLoop L model rest
    else
      match processArticle L article model with
      | .error e => .error e
      | .ok p =>
        match processLoop L model rest with
        | .error e => .error e
        | .ok ps => .ok (p :: ps)

/-- The sort key of the final `sort_values('published_at',
ascending=False)`: the column is first converted with `pd.to_datetime`. -/
def publishedKey (L : Libs) (p : ProcessedArticle) : ℤ :=
  L.parseDatetime (p.published_at.getD (""))

/-- Model of `df.sort_values('published_at', ascending=False)` as pandas
implements it (`nargsort`): reverse the key column, argsort it ascending, remap the
positions through the reversed index and reverse the indexer, then take the
rows in indexer order.  Row lookup uses a default row; under `ArgsortOK`
every index is in range so the default is never selected. -/
def sortValuesDesc (L : Libs) (rows : List ProcessedArticle) :
    List ProcessedArticle :=
  let keys := rows.map (publishedKey L)
  let a := L.argsort keys.reverse
  let indexer := (a.map (fun j => rows.length - 1 - j)).reverse
  indexer.map (fun i => rows.getD i default)

/-- Model of `AINewsAnalyzer.process_news_articles(articles, model)`
(api_handler.py lines 137–197): run the loop, then sort by `published_at`
descending when the frame is non-empty. -/
def processNewsArticles (L : Libs) (articles : List RawArticle)
    (model : String) : Except String (List ProcessedArticle) :=
  match processLoop L model articles with
  | .error e => .error e
  | .ok rows => .ok (if rows = [] then rows else sortValuesDesc L rows)

/-- Model of `df['sentiment_polarity'].idxmax()` followed by `df.loc[...]`:
the first row attaining the maximal value. -/
def firstMaxBy (f : ProcessedArticle → ℚ) :
    List ProcessedArticle → Option ProcessedArticle
  | [] => none
  | a :: rest =>
    match firstMaxBy f rest with
    | none => some a
    | some b => some (if f b > f a then b else a)

/-- Model of `df['sentiment_polarity'].idxmin()` followed by `df.loc[...]`:
the first row attaining the minimal value. -/
def firstMinBy (f : ProcessedArticle → ℚ) :
    List ProcessedArticle → Option ProcessedArticle
  | [] => none
  | a :: rest =>
    match firstMinBy f rest with
    | none => some a
    | some b => some (if f b < f a then b else a)

/-- The most-positive lookup of `display_sentiment_analysis` (cli_demo.py
lines 85–87): only performed when some row is labeled `positive`, and then
it takes the global polarity argmax of the whole frame. -/
def mostPositive (df : List ProcessedArticle) : Option ProcessedArticle :=
  if 0 < (df.filter (fun p => p.sentiment_label == "positive")).length then
    firstMaxBy (fun p => p.sentiment_polarity) df
  else none

/-- The most-negative lookup of `display_sentiment_analysis` (cli_demo.py
lines 89–91): only performed when some row is labeled `negative`, and then
it takes the global polarity argmin of the whole frame. -/
def mostNegative (df : List ProcessedArticle) : Option ProcessedArticle :=
  if 0 < (df.filter (fun p => p.sentiment_label == "negative")).length then
    firstMinBy (fun p => p.sentiment_polarity) df
  else none

/-- Index comparison realizing a stable ascending argsort of `keys`:
strictly smaller key first, ties in index order. -/
def stableIdxRel (keys : List ℤ) (i j : ℕ) : Prop :=
  keys.getD i 0 < keys.getD j 0 ∨ (keys.getD i 0 = keys.getD j 0 ∧ i ≤ j)

/-- Index comparison realizing a valid but anti-stable ascending argsort:
strictly smaller key first, ties in reversed index order. -/
def antiIdxRel (keys : List ℤ) (i j : ℕ) : Prop :=
  keys.getD i 0 < keys.getD j 0 ∨ (keys.getD i 0 = keys.getD j 0 ∧ j ≤ i)

instance (keys : List ℤ) : DecidableRel (stableIdxRel keys) := fun i j => by
  unfold stableIdxRel; infer_instance

instance (keys : List ℤ) : DecidableRel (antiIdxRel keys) := fun i j => by
  unfold antiIdxRel; infer_instance

instance (keys : List ℤ) : IsTotal ℕ (stableIdxRel keys) := by
  constructor
  intro i j
  rcases lt_trichotomy (keys.getD i 0) (keys.getD j 0) with h | h | h
  · exact Or.inl (Or.inl h)
  · rcases Nat.le_total i j with hij | hij
    · exact Or.inl (Or.inr ⟨h, hij⟩)
    · exact Or.inr (Or.inr ⟨h.symm, hij⟩)
  · exact Or.inr (Or.inl h)

instance (keys : List ℤ) : IsTrans ℕ (stableIdxRel keys) := by
  constructor
  intro i j k hij hjk
  rcases hij with h1 | ⟨h1, h1'⟩ <;> rcases hjk with h2 | ⟨h2, h2'⟩
  · exact Or.inl (h1.trans h2)
  · exact Or.inl (h2 ▸ h1)
  · exact Or.inl (h1 ▸ h2)
  · exact Or.inr ⟨h1.trans h2, h1'.trans h2'⟩

instance (keys : List ℤ) : IsTotal ℕ (antiIdxRel keys) := by
  constructor
  intro i j
  rcases lt_trichotomy (keys.getD i 0) (keys.getD j 0) with h | h | h
  · exact Or.inl (Or.inl h)
  · rcases Nat.le_total i j with hij | hij
    · exact Or.inr (Or.inr ⟨h.symm, hij⟩)
    · exact Or.inl (Or.inr ⟨h, hij⟩)
  · exact Or.inr (Or.inl h)

instance (keys : List ℤ) : IsTrans ℕ (antiIdxRel keys) := by
  constructor
  intro i j k hij hjk
  rcases hij with h1 | ⟨h1, h1'⟩ <;> rcases hjk with h2 | ⟨h2, h2'⟩
  · exact Or.inl (h1.trans h2)
  · exact Or.inl (h2 ▸ h1)
  · exact Or.inl (h1 ▸ h2)
  · exact Or.inr ⟨h1.trans h2, h2'.trans h1'⟩

/-- A stable conforming implementation of the opaque ascending argsort. -/
def stableArgsort (keys : List ℤ) : List ℕ :=
  List.insertionSort (stableIdxRel keys) (List.range keys.length)

/-- A conforming but non-stable implementation of the opaque ascending
argsort: it orders equal keys by descending position, which is one
behaviour `numpy.argsort(kind='quicksort')` is allowed to exhibit. -/
def antiArgsort (keys : List ℤ) : List ℕ :=
  List.insertionSort (antiIdxRel keys) (List.range keys.length)

/-- A concrete instantiation of the external libraries, used to run the
pipeline on closed inputs. -/
def L0 : Libs where
  blobPolarity := fun s => if s = "good" then 1 else if s = "bad" then -1 else 0
  blobSubjectivity := fun s => if s = "good" then 1/2 else 0
  vaderCompound := fun s => if s = "good" then 7/100 else if s = "bad" then -(6/100) else 0
  parseDatetime := fun s => (s.length : ℤ)
  argsort := stableArgsort

/-- The same external libraries with the anti-stable (but conforming)
argsort implementation. -/
def Lbad : Libs where
  blobPolarity := fun s => if s = "good" then 1 else if s = "bad" then -1 else 0
  blobSubjectivity := fun s => if s = "good" then 1/2 else 0
  vaderCompound := fun s => if s = "good" then 7/100 else if s = "bad" then -(6/100) else 0
  parseDatetime := fun s => (s.length : ℤ)
  argsort := antiArgsort

/-- A well-formed article: positive title, `None` description. -/
def artGood : RawArticle where
  title := .str ("good")
  description := .null
  url := "http://example.com/a"
  sourceName := "SourceA"
  publishedAt := .str ("2024")
  author := .absent

/-- A well-formed article with a negative title and a longer timestamp
string (hence a later parsed date under `L0.parseDatetime`). -/
def artBad : RawArticle where
  title := .str ("bad")
  description := .str ("good")
  url := "http://example.com/b"
  sourceName := "SourceB"
  publishedAt := .str ("2024-01")
  author := .null

/-- A malformed article: its title is present but `None`, so
`article.get('title')` is falsy and the loop skips it. -/
def artNoTitle : RawArticle where
  title := .null
  description := .str ("good")
  url := "http://example.com/c"
  sourceName := "SourceC"
  publishedAt := .str ("2024")
  author := .absent

/-- An article whose `description` key is missing entirely: scoring it
executes `article['description']` and raises `KeyError`. -/
def artNoDescKey : RawArticle where
  title := .str ("good")
  description := .absent
  url := "http://example.com/d"
  sourceName := "SourceD"
  publishedAt := .str ("2024")
  author := .absent

/-- First of two articles sharing one `publishedAt` value. -/
def artTieA : RawArticle where
  title := .str ("A")
  description := .null
  url := "http://example.com/ta"
  sourceName := "SourceT"
  publishedAt := .str ("2024")
  author := .absent

/-- Second of two articles sharing one `publishedAt` value. -/
def artTieB : RawArticle where
  title := .str ("B")
  description := .null
  url := "http://example.com/tb"
  sourceName := "SourceT"
  publishedAt := .str ("2024")
  author := .absent

/-- The batch produced from two well-formed articles under `L0` (used to
instantiate theorems about aggregation on a closed input). -/
def batch0 : List ProcessedArticle :=
  (processNewsArticles L0 [artGood, artBad] "Textblob").toOption.getD []

/-- The row produced by scoring `artGood` under `L0` with the lexicon
model. -/
def row0 : ProcessedArticle :=
  (processArticle L0 artGood "Textblob").toOption.getD default

lemma stableArgsort_ok : ArgsortOK stableArgsort := by
  intro keys
  constructor
  · simpa [stableArgsort] using
      List.perm_insertionSort (stableIdxRel keys) (List.range keys.length)
  · have h : List.Pairwise (stableIdxRel keys) (stableArgsort keys) :=
      List.sorted_insertionSort (stableIdxRel keys) (List.range keys.length)
    refine h.imp ?_
    intro i j hij
    rcases hij with h' | ⟨h', _⟩
    · exact le_of_lt h'
    · exact le_of_eq h'

lemma antiArgsort_ok : ArgsortOK antiArgsort := by
  intro keys
  constructor
  · simpa [antiArgsort] using
      List.perm_insertionSort (antiIdxRel keys) (List.range keys.length)
  · have h : List.Pairwise (antiIdxRel keys) (antiArgsort keys) :=
      List.sorted_insertionSort (antiIdxRel keys) (List.range keys.length)
    refine h.imp ?_
    intro i j hij
    rcases hij with h' | ⟨h', _⟩
    · exact le_of_lt h'
    · exact le_of_eq h'

lemma processArticle_eq_ok (L : Libs) (article : RawArticle) (model : String)
    (p : ProcessedArticle) (h : processArticle L article model = .ok p) :
    p.sentiment_polarity =
      (analyzeSentiment L article.title.pyGet model).polarity * (7/10) +
      (analyzeSentiment L article.description.pyGet model).polarity * (3/10) ∧
    p.sentiment_subjectivity =
      (analyzeSentiment L article.title.pyGet model).subjectivity * (7/10) +
      (analyzeSentiment L article.description.pyGet model).subjectivity * (3/10) ∧
    p.sentiment_label = overallSentimentLabel p.sentiment_polarity ∧
    p.title_polarity = (analyzeSentiment L article.title.pyGet model).polarity ∧
    p.description_polarity = (analyzeSentiment L article.description.pyGet model).polarity ∧
    p.title = article.title.pyGet ∧
    p.published_at = article.publishedAt.pyGet := by
  obtain ⟨t, d, u, sn, pa, au⟩ := article
  cases t <;> cases d <;> cases pa <;>
    simp only [processArticle, PyField.subscript, PyField.pyGet,
      Except.ok.injEq] at h ⊢ <;>
    first
      | (obtain rfl := h; exact ⟨rfl, rfl, rfl, rfl, rfl, rfl, rfl⟩)
      | exact absurd h (by simp)

lemma processLoop_mem (L : Libs) (model : String) :
    ∀ (arts : List RawArticle) (rows : List ProcessedArticle),
      processLoop L model arts = .ok rows →
      ∀ p ∈ rows,
        p.sentiment_label = overallSentimentLabel p.sentiment_polarity ∧
        pyTruthy p.title = true ∧ pyTruthy p.published_at = true
  | [], rows => by
      intro h p hp
      simp only [processLoop, Except.ok.injEq] at h
      obtain rfl := h
      cases hp
  | a :: rest, rows => by
      intro h p hp
      simp only [processLoop] at h
      by_cases hg : (!pyTruthy a.title.pyGet || !pyTruthy a.publishedAt.pyGet) = true
      · rw [if_pos hg] at h
        exact processLoop_mem L model rest rows h p hp
      · rw [if_neg hg] at h
        cases h1 : processArticle L a model with
        | error e => rw [h1] at h; cases h
        | ok p0 =>
          rw [h1] at h
          cases h2 : processLoop L model rest with
          | error e => rw [h2] at h; cases h
          | ok ps =>
            rw [h2] at h
            obtain rfl := (Except.ok.injEq _ _).mp h
            have hx : pyTruthy a.title.pyGet = true := by
              cases hxx : pyTruthy a.title.pyGet
              · exact absurd (by simp [hxx]) hg
              · rfl
            have hy : pyTruthy a.publishedAt.pyGet = true := by
              cases hyy : pyTruthy a.publishedAt.pyGet
              · exact absurd (by simp [hyy]) hg
              · rfl
            rcases List.mem_cons.mp hp with rfl | hp
            · obtain ⟨-, -, hlab, -, -, htit, hpub⟩ :=
                processArticle_eq_ok L a model p h1
              exact ⟨hlab, htit ▸ hx, hpub ▸ hy⟩
            · exact processLoop_mem L model rest ps h2 p hp

lemma sortValuesDesc_pairwise (L : Libs) (hA : ArgsortOK L.argsort)
    (rows : List ProcessedArticle) :
    (sortValuesDesc L rows).Pairwise
      (fun p q => publishedKey L q ≤ publishedKey L p) := by
  obtain ⟨hperm, hpair⟩ := hA ((rows.map (publishedKey L)).reverse)
  have hmem : ∀ j ∈ L.argsort ((rows.map (publishedKey L)).reverse),
      j < rows.length := by
    intro j hj
    have hr := List.mem_range.mp (hperm.mem_iff.mp hj)
    simpa using hr
  have hkey : ∀ (j : ℕ), j < rows.length →
      ((rows.map (publishedKey L)).reverse).getD j 0 =
        publishedKey L (rows.getD (rows.length - 1 - j) default) := by
    intro j hj
    have h1 : j < ((rows.map (publishedKey L)).reverse).length := by
      simpa using hj
    have h2 : rows.length - 1 - j < rows.length := by omega
    rw [List.getD_eq_getElem _ _ h1, List.getElem_reverse,
      List.getD_eq_getElem _ _ h2]
    simp [List.getElem_map, List.length_map]
  have h1 : (L.argsort ((rows.map (publishedKey L)).reverse)).Pairwise
      (fun i j =>
        publishedKey L (rows.getD (rows.length - 1 - i) default) ≤
        publishedKey L (rows.getD (rows.length - 1 - j) default)) := by
    refine hpair.imp_of_mem ?_
    intro i j hi hj hij
    rwa [hkey i (hmem i hi), hkey j (hmem j hj)] at hij
  have h2 : ((L.argsort ((rows.map (publishedKey L)).reverse)).map
      (fun j => rows.length - 1 - j)).Pairwise
      (fun x y => publishedKey L (rows.getD x default) ≤
        publishedKey L (rows.getD y default)) :=
    List.pairwise_map.mpr h1
  have h3 : (((L.argsort ((rows.map (publishedKey L)).reverse)).map
      (fun j => rows.length - 1 - j)).reverse).Pairwise
      (fun x y => publishedKey L (rows.getD y default) ≤
        publishedKey L (rows.getD x default)) :=
    List.pairwise_reverse.mpr h2
  have h4 : ((((L.argsort ((rows.map (publishedKey L)).reverse)).map
      (fun j => rows.length - 1 - j)).reverse).map
      (fun i => rows.getD i default)).Pairwise
      (fun p q => publishedKey L q ≤ publishedKey L p) :=
    List.pairwise_map.mpr h3
  exact h4

lemma sortValuesDesc_mem (L : Libs) (hA : ArgsortOK L.argsort)
    (rows : List ProcessedArticle) :
    ∀ p ∈ sortValuesDesc L rows, p ∈ rows := by
  intro p hp
  obtain ⟨hperm, -⟩ := hA ((rows.map (publishedKey L)).reverse)
  simp only [sortValuesDesc, List.mem_map, List.mem_reverse] at hp
  obtain ⟨i, hi, rfl⟩ := hp
  obtain ⟨j, hj, rfl⟩ := hi
  have hjn : j < rows.length := by
    have hr := List.mem_range.mp (hperm.mem_iff.mp hj)
    simpa using hr
  have hin : rows.length - 1 - j < rows.length := by omega
  rw [List.getD_eq_getElem _ _ hin]
  exact List.getElem_mem _

lemma processNewsArticles_ok_elim (L : Libs) (articles : List RawArticle)
    (model : String) (df : List ProcessedArticle)
    (h : processNewsArticles L articles model = .ok df) :
    ∃ rows, processLoop L model articles = .ok rows ∧
      df = if rows = [] then rows else sortValuesDesc L rows := by
  unfold processNewsArticles at h
  cases hl : processLoop L model articles with
  | error e => rw [hl] at h; cases h
  | ok rows =>
    rw [hl] at h
    exact ⟨rows, rfl, ((Except.ok.injEq _ _).mp h).symm⟩

lemma processNewsArticles_mem (L : Libs) (hA : ArgsortOK L.argsort)
    (articles : List RawArticle) (model : String) (df : List ProcessedArticle)
    (h : processNewsArticles L articles model = .ok df) :
    ∀ p ∈ df,
      p.sentiment_label = overallSentimentLabel p.sentiment_polarity ∧
      pyTruthy p.title = true ∧ pyTruthy p.published_at = true := by
  obtain ⟨rows, hloop, rfl⟩ := processNewsArticles_ok_elim L articles model df h
  intro p hp
  split at hp
  · exact processLoop_mem L model articles rows hloop p hp
  · exact processLoop_mem L model articles rows hloop p
      (sortValuesDesc_mem L hA rows p hp)

lemma processLoop_middle_skip (L : Libs) (model : String)
    (bad : RawArticle) (l2 : List RawArticle)
    (hbad : (!pyTruthy bad.title.pyGet || !pyTruthy bad.publishedAt.pyGet) = true) :
    ∀ l1 : List RawArticle,
      processLoop L model (l1 ++ bad :: l2) = processLoop L model (l1 ++ l2)
  | [] => by
      simp only [List.nil_append]
      simp only [processLoop, hbad, if_pos]
  | a :: l1 => by
      simp only [List.cons_append, processLoop, List.append_eq]
      rw [processLoop_middle_skip L model bad l2 hbad l1]

lemma firstMaxBy_eq_none (f : ProcessedArticle → ℚ) :
    ∀ l : List ProcessedArticle, firstMaxBy f l = none ↔ l = []
  | [] => by simp [firstMaxBy]
  | a :: rest => by
      simp only [firstMaxBy]
      cases firstMaxBy f rest <;> simp

lemma firstMaxBy_mem (f : ProcessedArticle → ℚ) :
    ∀ (l : List ProcessedArticle) (p : ProcessedArticle),
      firstMaxBy f l = some p → p ∈ l
  | [], p => by simp [firstMaxBy]
  | a :: rest, p => by
      simp only [firstMaxBy]
      cases hr : firstMaxBy f rest with
      | none => intro h; obtain rfl := (Option.some.injEq _ _).mp h; exact List.mem_cons_self a rest
      | some b =>
        intro h
        obtain rfl := (Option.some.injEq _ _).mp h
        by_cases hb : f b > f a
        · rw [if_pos hb]
          exact List.mem_cons_of_mem a (firstMaxBy_mem f rest b hr)
        · rw [if_neg hb]
          exact List.mem_cons_self a rest

lemma firstMaxBy_le (f : ProcessedArticle → ℚ) :
    ∀ (l : List ProcessedArticle) (p : ProcessedArticle),
      firstMaxBy f l = some p → ∀ q ∈ l, f q ≤ f p
  | [], p => by simp [firstMaxBy]
  | a :: rest, p => by
      simp only [firstMaxBy]
      cases hr : firstMaxBy f rest with
      | none =>
        intro h q hq
        obtain rfl := (Option.some.injEq _ _).mp h
        obtain rfl := (firstMaxBy_eq_none f rest).mp hr
        rcases List.mem_cons.mp hq with rfl | hq
        · exact le_refl _
        · cases hq
      | some b =>
        intro h q hq
        obtain rfl := (Option.some.injEq _ _).mp h
        rcases List.mem_cons.mp hq with rfl | hq
        · by_cases hb : f b > f q
          · rw [if_pos hb]; exact le_of_lt hb
          · rw [if_neg hb]
        · have hqb := firstMaxBy_le f rest b hr q hq
          by_cases hb : f b > f a
          · rw [if_pos hb]; exact hqb
          · rw [if_neg hb]; exact hqb.trans (not_lt.mp hb)

lemma firstMinBy_eq_none (f : ProcessedArticle → ℚ) :
    ∀ l : List ProcessedArticle, firstMinBy f l = none ↔ l = []
  | [] => by simp [firstMinBy]
  | a :: rest => by
      simp only [firstMinBy]
      cases firstMinBy f rest <;> simp

lemma firstMinBy_mem (f : ProcessedArticle → ℚ) :
    ∀ (l : List ProcessedArticle) (p : ProcessedArticle),
      firstMinBy f l = some p → p ∈ l
  | [], p => by simp [firstMinBy]
  | a :: rest, p => by
      simp only [firstMinBy]
      cases hr : firstMinBy f rest with
      | none => intro h; obtain rfl := (Option.some.injEq _ _).mp h; exact List.mem_cons_self a rest
      | some b =>
        intro h
        obtain rfl := (Option.some.injEq _ _).mp h
        by_cases hb : f b < f a
        · rw [if_pos hb]
          exact List.mem_cons_of_mem a (firstMinBy_mem f rest b hr)
        · rw [if_neg hb]
          exact List.mem_cons_self a rest

lemma firstMinBy_le (f : ProcessedArticle → ℚ) :
    ∀ (l : List ProcessedArticle) (p : ProcessedArticle),
      firstMinBy f l = some p → ∀ q ∈ l, f p ≤ f q
  | [], p => by simp [firstMinBy]
  | a :: rest, p => by
      simp only [firstMinBy]
      cases hr : firstMinBy f rest with
      | none =>
        intro h q hq
        obtain rfl := (Option.some.injEq _ _).mp h
        obtain rfl := (firstMinBy_eq_none f rest).mp hr
        rcases List.mem_cons.mp hq with rfl | hq
        · exact le_refl _
        · cases hq
      | some b =>
        intro h q hq
        obtain rfl := (Option.some.injEq _ _).mp h
        rcases List.mem_cons.mp hq with rfl | hq
        · by_cases hb : f b < f q
          · rw [if_pos hb]; exact le_of_lt hb
          · rw [if_neg hb]
        · have hqb := firstMinBy_le f rest b hr q hq
          by_cases hb : f b < f a
          · rw [if_pos hb]; exact hqb
          · rw [if_neg hb]; exact (not_lt.mp hb).trans hqb

lemma overallSentimentLabel_pos_iff (x : ℚ) :
    overallSentimentLabel x = "positive" ↔ 1/10 < x := by
  unfold overallSentimentLabel
  by_cases h1 : x > 1/10
  · rw [if_pos h1]
    exact ⟨fun _ => h1, fun _ => rfl⟩
  · rw [if_neg h1]
    constructor
    · intro hl
      by_cases h2 : x < -(1/10)
      · rw [if_pos h2] at hl
        exact absurd hl (by decide)
      · rw [if_neg h2] at hl
        exact absurd hl (by decide)
    · intro h
      exact absurd h h1

lemma overallSentimentLabel_neg_iff (x : ℚ) :
    overallSentimentLabel x = "negative" ↔ x < -(1/10) := by
  unfold overallSentimentLabel
  by_cases h1 : x > 1/10
  · rw [if_pos h1]
    constructor
    · intro hl
      exact absurd hl (by decide)
    · intro h2
      have hlt : (-(1/10) : ℚ) < 1/10 := by norm_num
      exact absurd (lt_trans h2 (lt_trans hlt h1)) (lt_irrefl x)
  · rw [if_neg h1]
    by_cases h2 : x < -(1/10)
    · rw [if_pos h2]
      exact ⟨fun _ => h2, fun _ => rfl⟩
    · rw [if_neg h2]
      exact ⟨fun hl => absurd hl (by decide), fun h => absurd h h2⟩

lemma mostPositive_spec (df : List ProcessedArticle)
    (hinv : ∀ p ∈ df,
      p.sentiment_label = overallSentimentLabel p.sentiment_polarity) :
    (mostPositive df = none ↔ ∀ p ∈ df, p.sentiment_label ≠ "positive") ∧
    (∀ p, mostPositive df = some p → p ∈ df ∧ p.sentiment_label = "positive" ∧
      ∀ q ∈ df, q.sentiment_label = "positive" →
        q.sentiment_polarity ≤ p.sentiment_polarity) := by
  by_cases hc : 0 < (df.filter (fun p => p.sentiment_label == "positive")).length
  · obtain ⟨q, hq⟩ := List.exists_mem_of_length_pos hc
    have hqdf : q ∈ df := (List.mem_filter.mp hq).1
    have hqlab : q.sentiment_label = "positive" := by
      have := (List.mem_filter.mp hq).2
      simpa using this
    have hne : df ≠ [] := by
      intro h; rw [h] at hqdf; cases hqdf
    have hm : ∃ m, firstMaxBy (fun p => p.sentiment_polarity) df = some m := by
      cases hfm : firstMaxBy (fun p => p.sentiment_polarity) df with
      | none => exact absurd ((firstMaxBy_eq_none _ df).mp hfm) hne
      | some m => exact ⟨m, rfl⟩
    obtain ⟨m, hm⟩ := hm
    have hmost : mostPositive df = some m := by
      unfold mostPositive
      rw [if_pos hc, hm]
    have hmmem : m ∈ df := firstMaxBy_mem _ df m hm
    have hmax : ∀ r ∈ df, r.sentiment_polarity ≤ m.sentiment_polarity :=
      firstMaxBy_le _ df m hm
    have hqpol : 1/10 < q.sentiment_polarity :=
      (overallSentimentLabel_pos_iff _).mp ((hinv q hqdf) ▸ hqlab)
    have hmlab : m.sentiment_label = "positive" := by
      rw [hinv m hmmem]
      exact (overallSentimentLabel_pos_iff _).mpr
        (lt_of_lt_of_le hqpol (hmax q hqdf))
    constructor
    · rw [hmost]
      constructor
      · intro h; cases h
      · intro h; exact absurd hqlab (h q hqdf)
    · intro p hp
      rw [hmost] at hp
      obtain rfl := (Option.some.injEq _ _).mp hp
      exact ⟨hmmem, hmlab, fun r hr _ => hmax r hr⟩
  · have h0 : (df.filter (fun p => p.sentiment_label == "positive")).length = 0 :=
      Nat.eq_zero_of_not_pos hc
    have hnil : df.filter (fun p => p.sentiment_label == "positive") = [] :=
      List.length_eq_zero.mp h0
    have hall : ∀ p ∈ df, p.sentiment_label ≠ "positive" := by
      intro p hp hlab
      have : p ∈ df.filter (fun p => p.sentiment_label == "positive") :=
        List.mem_filter.mpr ⟨hp, by simp [hlab]⟩
      rw [hnil] at this; cases this
    have hmost : mostPositive df = none := by
      unfold mostPositive
      rw [if_neg hc]
    constructor
    · rw [hmost]
      exact ⟨fun _ => hall, fun _ => rfl⟩
    · intro p hp
      rw [hmost] at hp; cases hp

lemma mostNegative_spec (df : List ProcessedArticle)
    (hinv : ∀ p ∈ df,
      p.sentiment_label = overallSentimentLabel p.sentiment_polarity) :
    (mostNegative df = none ↔ ∀ p ∈ df, p.sentiment_label ≠ "negative") ∧
    (∀ p, mostNegative df = some p → p ∈ df ∧ p.sentiment_label = "negative" ∧
      ∀ q ∈ df, q.sentiment_label = "negative" →
        p.sentiment_polarity ≤ q.sentiment_polarity) := by
  by_cases hc : 0 < (df.filter (fun p => p.sentiment_label == "negative")).length
  · obtain ⟨q, hq⟩ := List.exists_mem_of_length_pos hc
    have hqdf : q ∈ df := (List.mem_filter.mp hq).1
    have hqlab : q.sentiment_label = "negative" := by
      have := (List.mem_filter.mp hq).2
      simpa using this
    have hne : df ≠ [] := by
      intro h; rw [h] at hqdf; cases hqdf
    have hm : ∃ m, firstMinBy (fun p => p.sentiment_polarity) df = some m := by
      cases hfm : firstMinBy (fun p => p.sentiment_polarity) df with
      | none => exact absurd ((firstMinBy_eq_none _ df).mp hfm) hne
      | some m => exact ⟨m, rfl⟩
    obtain ⟨m, hm⟩ := hm
    have hmost : mostNegative df = some m := by
      unfold mostNegative
      rw [if_pos hc, hm]
    have hmmem : m ∈ df := firstMinBy_mem _ df m hm
    have hmin : ∀ r ∈ df, m.sentiment_polarity ≤ r.sentiment_polarity :=
      firstMinBy_le _ df m hm
    have hqpol : q.sentiment_polarity < -(1/10) :=
      (overallSentimentLabel_neg_iff _).mp ((hinv q hqdf) ▸ hqlab)
    have hmlab : m.sentiment_label = "negative" := by
      rw [hinv m hmmem]
      exact (overallSentimentLabel_neg_iff _).mpr
        (lt_of_le_of_lt (hmin q hqdf) hqpol)
    constructor
    · rw [hmost]
      constructor
      · intro h; cases h
      · intro h; exact absurd hqlab (h q hqdf)
    · intro p hp
      rw [hmost] at hp
      obtain rfl := (Option.some.injEq _ _).mp hp
      exact ⟨hmmem, hmlab, fun r hr _ => hmin r hr⟩
  · have h0 : (df.filter (fun p => p.sentiment_label == "negative")).length = 0 :=
      Nat.eq_zero_of_not_pos hc
    have hnil : df.filter (fun p => p.sentiment_label == "negative") = [] :=
      List.length_eq_zero.mp h0
    have hall : ∀ p ∈ df, p.sentiment_label ≠ "negative" := by
      intro p hp hlab
      have : p ∈ df.filter (fun p => p.sentiment_label == "negative") :=
        List.mem_filter.mpr ⟨hp, by simp [hlab]⟩
      rw [hnil] at this; cases this
    have hmost : mostNegative df = none := by
      unfold mostNegative
      rw [if_neg hc]
    constructor
    · rw [hmost]
      exact ⟨fun _ => hall, fun _ => rfl⟩
    · intro p hp
      rw [hmost] at hp; cases hp

/-- Claim C1: for every article accepted into the batch, the combined
polarity is `0.7 * title.polarity + 0.3 * description.polarity`, the
combined subjectivity is `0.7 * title.subjectivity + 0.3 *
description.subjectivity`, and the combined label follows the fixed
symmetric threshold `0.1` on the combined polarity, for every model
selector. -/
theorem combined_score_weighted_invariant (L : Libs) (article : RawArticle)
    (model : String) (p : ProcessedArticle)
    (h : processArticle L article model = .ok p) :
    p.sentiment_polarity =
      7/10 * p.title_polarity + 3/10 * p.description_polarity ∧
    p.sentiment_subjectivity =
      7/10 * (analyzeSentiment L article.title.pyGet model).subjectivity +
      3/10 * (analyzeSentiment L article.description.pyGet model).subjectivity ∧
    p.sentiment_label = overallSentimentLabel p.sentiment_polarity := by
  obtain ⟨h1, h2, h3, h4, h5, -, -⟩ := processArticle_eq_ok L article model p h
  refine ⟨?_, ?_, h3⟩
  · rw [h1, h4, h5]; ring
  · rw [h2]; ring

/-- Witness for C1: the scorer applied to a concrete article under a
concrete library instance. -/
theorem combined_score_weighted_invariant_witness :
    processArticle L0 artGood ("Textblob") = .ok row0 ∧
    (row0.sentiment_polarity =
      7/10 * row0.title_polarity + 3/10 * row0.description_polarity ∧
    row0.sentiment_subjectivity =
      7/10 * (analyzeSentiment L0 artGood.title.pyGet ("Textblob")).subjectivity +
      3/10 * (analyzeSentiment L0 artGood.description.pyGet ("Textblob")).subjectivity ∧
    row0.sentiment_label = overallSentimentLabel row0.sentiment_polarity) :=
  ⟨rfl, combined_score_weighted_invariant L0 artGood ("Textblob") row0 rfl⟩

/-- Claim C2 counterexample: an unsupported model selector does not fail
fast; the scorer silently returns the same well-formed score the lexicon
selector produces (there is no error path in `analyze_sentiment` for the
model argument). -/
theorem unsupported_selector_no_failfast_counterexample :
    analyzeSentiment L0 (some ("good")) ("Bogus") =
      analyzeSentiment L0 (some ("good")) ("Textblob") ∧
    (analyzeSentiment L0 (some ("good")) ("Bogus")).label = "positive" := by
  constructor
  · rfl
  · have h1 : ¬("good" : String) = "" := by decide
    have h2 : ¬("Bogus" : String) = "Vader" := by decide
    norm_num [analyzeSentiment, L0, pyTruthy, h1, h2]

/-- Claim C2 as amended: scoring with any selector other than `"Vader"`
does not raise; it silently behaves exactly like the lexicon (TextBlob)
selector, threshold `0.1` included. -/
theorem unsupported_selector_silently_defaults (L : Libs)
    (text : Option String) (m : String) (hm : m ≠ "Vader") :
    analyzeSentiment L text m = analyzeSentiment L text ("Textblob") := by
  unfold analyzeSentiment
  simp [hm]

/-- Witness for the amended C2 at the dashboard's actual default spelling
`"TextBlob"`, which is itself not `"Vader"`. -/
theorem unsupported_selector_silently_defaults_witness :
    ("TextBlob" : String) ≠ "Vader" ∧
    analyzeSentiment L0 (some ("good")) ("TextBlob") =
      analyzeSentiment L0 (some ("good")) ("Textblob") :=
  ⟨by decide,
    unsupported_selector_silently_defaults L0 (some ("good")) ("TextBlob")
      (by decide)⟩

/-- Claim C3: for non-empty text the label is the strict symmetric step
function of the selected model's polarity and threshold: `0.05` for the
rule-based (`"Vader"`) model and `0.1` for the lexicon (`"Textblob"`)
model; a polarity exactly at the boundary is neutral. -/
theorem label_threshold_step (L : Libs) (s : String) (hs : s ≠ "") :
    ((analyzeSentiment L (some s) ("Vader")).label =
      if L.vaderCompound s > 5/100 then "positive"
      else if L.vaderCompound s < -(5/100) then "negative"
      else "neutral") ∧
    ((analyzeSentiment L (some s) ("Textblob")).label =
      if L.blobPolarity s > 1/10 then "positive"
      else if L.blobPolarity s < -(1/10) then "negative"
      else "neutral") := by
  constructor <;> simp [analyzeSentiment, pyTruthy, hs]

/-- Witness for C3 at a concrete non-empty text. -/
theorem label_threshold_step_witness :
    ("good" : String) ≠ "" ∧
    (((analyzeSentiment L0 (some ("good")) ("Vader")).label =
      if L0.vaderCompound ("good") > 5/100 then "positive"
      else if L0.vaderCompound ("good") < -(5/100) then "negative"
      else "neutral") ∧
    ((analyzeSentiment L0 (some ("good")) ("Textblob")).label =
      if L0.blobPolarity ("good") > 1/10 then "positive"
      else if L0.blobPolarity ("good") < -(1/10) then "negative"
      else "neutral")) :=
  ⟨by decide, label_threshold_step L0 ("good") (by decide)⟩

/-- Claim C7: empty or absent text yields the fixed neutral score for every
model selector. -/
theorem empty_text_neutral_score (L : Libs) (model : String)
    (text : Option String) (h : text = none ∨ text = some ("")) :
    analyzeSentiment L text model =
      { polarity := 0, subjectivity := 0, label := "neutral",
        confidence := 0 } := by
  rcases h with rfl | rfl <;> simp [analyzeSentiment, pyTruthy]

/-- Witness for C7 with absent text and the rule-based selector. -/
theorem empty_text_neutral_score_witness :
    ((none : Option String) = none ∨ (none : Option String) = some ("")) ∧
    analyzeSentiment L0 none ("Vader") =
      { polarity := 0, subjectivity := 0, label := "neutral",
        confidence := 0 } :=
  ⟨Or.inl rfl, empty_text_neutral_score L0 ("Vader") none (Or.inl rfl)⟩

/-- Claim C8: for non-empty text the subjectivity of the returned score is
always the lexicon (TextBlob) subjectivity, for every model selector; in
particular it coincides with the subjectivity the lexicon selector
returns. -/
theorem subjectivity_from_lexicon (L : Libs) (s : String) (model : String)
    (hs : s ≠ "") :
    (analyzeSentiment L (some s) model).subjectivity = L.blobSubjectivity s ∧
    (analyzeSentiment L (some s) model).subjectivity =
      (analyzeSentiment L (some s) ("Textblob")).subjectivity := by
  constructor <;> simp [analyzeSentiment, pyTruthy, hs]

/-- Witness for C8 with the rule-based selector on a concrete text. -/
theorem subjectivity_from_lexicon_witness :
    ("good" : String) ≠ "" ∧
    ((analyzeSentiment L0 (some ("good")) ("Vader")).subjectivity =
      L0.blobSubjectivity ("good") ∧
    (analyzeSentiment L0 (some ("good")) ("Vader")).subjectivity =
      (analyzeSentiment L0 (some ("good")) ("Textblob")).subjectivity) :=
  ⟨by decide, subjectivity_from_lexicon L0 ("good") ("Vader") (by decide)⟩

/-- Claim C10: the scorer's output depends on the model selector only
through string equality with `"Vader"`: any two selectors that are not
exactly `"Vader"` produce identical results on every text. -/
theorem non_vader_selectors_equivalent (L : Libs) (text : Option String)
    (m1 m2 : String) (h1 : m1 ≠ "Vader") (h2 : m2 ≠ "Vader") :
    analyzeSentiment L text m1 = analyzeSentiment L text m2 := by
  unfold analyzeSentiment
  simp [h1, h2]

/-- Witness for C10 with the two spellings `"Textblob"` and `"vader"`
(wrong case), neither of which is `"Vader"`. -/
theorem non_vader_selectors_equivalent_witness :
    ("Textblob" : String) ≠ "Vader" ∧ ("vader" : String) ≠ "Vader" ∧
    analyzeSentiment L0 (some ("good")) ("Textblob") =
      analyzeSentiment L0 (some ("good")) ("vader") :=
  ⟨by decide, by decide,
    non_vader_selectors_equivalent L0 (some ("good")) ("Textblob") ("vader")
      (by decide) (by decide)⟩

/-- Claim C4 (amended): every batch returned by `process_news_articles` is
sorted by published-at descending — for every pair of adjacent rows the
earlier one's parsed timestamp is at least the later one's.  (The original
claim's stability part fails; see the counterexample.) -/
theorem batch_sorted_published_desc (L : Libs) (hA : ArgsortOK L.argsort)
    (articles : List RawArticle) (model : String)
    (df : List ProcessedArticle)
    (h : processNewsArticles L articles model = .ok df) :
    df.Chain' (fun a b => publishedKey L b ≤ publishedKey L a) := by
  obtain ⟨rows, hloop, rfl⟩ := processNewsArticles_ok_elim L articles model df h
  by_cases hr : rows = []
  · rw [if_pos hr, hr]
    exact List.chain'_nil
  · rw [if_neg hr]
    exact (sortValuesDesc_pairwise L hA rows).chain'

/-- Witness for the amended C4 on a concrete two-article batch. -/
theorem batch_sorted_published_desc_witness :
    ArgsortOK L0.argsort ∧
    processNewsArticles L0 [artGood, artBad] ("Textblob") = .ok batch0 ∧
    batch0.Chain' (fun a b => publishedKey L0 b ≤ publishedKey L0 a) :=
  ⟨stableArgsort_ok, rfl,
    batch_sorted_published_desc L0 stableArgsort_ok [artGood, artBad]
      ("Textblob") batch0 rfl⟩

/-- Claim C4 counterexample (stability part): with a conforming but
non-stable argsort — behaviour `numpy.argsort(kind='quicksort')` is
permitted to exhibit — two articles sharing one published-at value come
back in reversed input order. -/
theorem batch_tie_order_not_stable_counterexample :
    ArgsortOK Lbad.argsort ∧
    artTieA.publishedAt = artTieB.publishedAt ∧
    ((processNewsArticles Lbad [artTieA, artTieB] ("Textblob")).toOption.getD
        []).map (fun p => p.title) = [some ("B"), some ("A")] :=
  ⟨antiArgsort_ok, rfl, rfl⟩

/-- Claim C5 (code behaviour at the failing input): an input article whose
`description` key is absent — but whose title and published-at are present
and non-empty — makes the whole aggregation raise `KeyError`; the
well-formed second article is lost too, instead of the description
defaulting to a neutral sub-score. -/
theorem absent_description_keyerror :
    processNewsArticles L0 [artNoDescKey, artGood] ("Textblob") =
      .error ("KeyError") ∧
    pyTruthy artNoDescKey.title.pyGet = true ∧
    pyTruthy artNoDescKey.publishedAt.pyGet = true :=
  ⟨rfl, by decide, by decide⟩

/-- Claim C6: an article whose `.get('title')` or `.get('publishedAt')` is
falsy is silently skipped — the pipeline's output on any input containing
it equals the output with it removed — and every row of a successful batch
has a non-empty (truthy) title and published-at value. -/
theorem malformed_articles_skipped_silently (L : Libs)
    (hA : ArgsortOK L.argsort) (l1 l2 : List RawArticle) (bad : RawArticle)
    (model : String)
    (hbad : pyTruthy bad.title.pyGet = false ∨
      pyTruthy bad.publishedAt.pyGet = false) :
    processNewsArticles L (l1 ++ bad :: l2) model =
      processNewsArticles L (l1 ++ l2) model ∧
    ∀ df, processNewsArticles L (l1 ++ bad :: l2) model = .ok df →
      ∀ p ∈ df, pyTruthy p.title = true ∧ pyTruthy p.published_at = true := by
  have hb : (!pyTruthy bad.title.pyGet || !pyTruthy bad.publishedAt.pyGet) =
      true := by
    rcases hbad with h | h <;> simp [h]
  constructor
  · unfold processNewsArticles
    rw [processLoop_middle_skip L model bad l2 hb l1]
  · intro df hdf p hp
    exact (processNewsArticles_mem L hA _ model df hdf p hp).2

/-- Witness for C6: a `None`-titled article dropped from a concrete batch. -/
theorem malformed_articles_skipped_silently_witness :
    ArgsortOK L0.argsort ∧
    (pyTruthy artNoTitle.title.pyGet = false ∨
      pyTruthy artNoTitle.publishedAt.pyGet = false) ∧
    (processNewsArticles L0 ([] ++ artNoTitle :: [artGood]) ("Textblob") =
      processNewsArticles L0 ([] ++ [artGood]) ("Textblob") ∧
    ∀ df,
      processNewsArticles L0 ([] ++ artNoTitle :: [artGood]) ("Textblob") =
        .ok df →
      ∀ p ∈ df, pyTruthy p.title = true ∧ pyTruthy p.published_at = true) :=
  ⟨stableArgsort_ok, Or.inl rfl,
    malformed_articles_skipped_silently L0 stableArgsort_ok [] [artGood]
      artNoTitle ("Textblob") (Or.inl rfl)⟩

/-- Claim C9: on any batch produced by the aggregator, the most-positive
lookup is `none` exactly when no row is labeled positive, and otherwise
returns a positive-labeled row whose polarity is maximal among
positive-labeled rows (indeed the global argmax is itself
positive-labeled); symmetrically for the most-negative lookup with the
minimum. -/
theorem extremal_lookups_correct (L : Libs) (hA : ArgsortOK L.argsort)
    (articles : List RawArticle) (model : String)
    (df : List ProcessedArticle)
    (h : processNewsArticles L articles model = .ok df) :
    (mostPositive df = none ↔ ∀ p ∈ df, p.sentiment_label ≠ "positive") ∧
    (∀ p, mostPositive df = some p → p ∈ df ∧
      p.sentiment_label = "positive" ∧
      ∀ q ∈ df, q.sentiment_label = "positive" →
        q.sentiment_polarity ≤ p.sentiment_polarity) ∧
    (mostNegative df = none ↔ ∀ p ∈ df, p.sentiment_label ≠ "negative") ∧
    (∀ p, mostNegative df = some p → p ∈ df ∧
      p.sentiment_label = "negative" ∧
      ∀ q ∈ df, q.sentiment_label = "negative" →
        p.sentiment_polarity ≤ q.sentiment_polarity) := by
  have hinv : ∀ p ∈ df,
      p.sentiment_label = overallSentimentLabel p.sentiment_polarity :=
    fun p hp => (processNewsArticles_mem L hA articles model df h p hp).1
  obtain ⟨hp1, hp2⟩ := mostPositive_spec df hinv
  obtain ⟨hn1, hn2⟩ := mostNegative_spec df hinv
  exact ⟨hp1, hp2, hn1, hn2⟩

/-- Witness for C9 on a concrete batch containing one positive and one
negative row. -/
theorem extremal_lookups_correct_witness :
    ArgsortOK L0.argsort ∧
    processNewsArticles L0 [artGood, artBad] ("Textblob") = .ok batch0 ∧
    ((mostPositive batch0 = none ↔
        ∀ p ∈ batch0, p.sentiment_label ≠ "positive") ∧
    (∀ p, mostPositive batch0 = some p → p ∈ batch0 ∧
      p.sentiment_label = "positive" ∧
      ∀ q ∈ batch0, q.sentiment_label = "positive" →
        q.sentiment_polarity ≤ p.sentiment_polarity) ∧
    (mostNegative batch0 = none ↔
        ∀ p ∈ batch0, p.sentiment_label ≠ "negative") ∧
    (∀ p, mostNegative batch0 = some p → p ∈ batch0 ∧
      p.sentiment_label = "negative" ∧
      ∀ q ∈ batch0, q.sentiment_label = "negative" →
        p.sentiment_polarity ≤ q.sentiment_polarity)) :=
  ⟨stableArgsort_ok, rfl,
    extremal_lookups_correct L0 stableArgsort_ok [artGood, artBad]
      ("Textblob") batch0 rfl⟩
